import Mathlib

/-!
Verification of the page-state classification and interaction-capture
pipeline of the `tiktok_live_fetch` repository.

The Python source is shallowly embedded: dataclasses become structures,
methods become pure functions, the mutable collector state becomes explicit
state passing, and the recursive `collect_once` cycle becomes a function
consuming the list of successive snapshots returned by the parser together
with an oracle describing each captcha episode.  Machine integers are `Nat`
(no overflow is possible in the counters involved), fallible reads are
`Option`, and the fallible query channel of the parser is `Except`.
-/

/-! ## Data model (src/tiktok_monitor/models.py) -/

/-- The `PageSnapshot` dataclass.  The `initial_data : Optional[dict]` blob is
modelled as an `Option String` (the structure of the blob is irrelevant to
every claim; only its presence is ever inspected).  `body_text_preview` is a
`List Char` so character-level truncation and sanitisation are faithful. -/
structure PageSnapshot where
  timestamp : String
  url : String
  title : String
  has_video : Bool
  has_error_message : Bool
  has_live_content : Bool
  element_count : Nat
  video_count : Nat
  html_size : Nat
  is_live_ended : Bool := false
  has_captcha : Bool := false
  has_page_error : Bool := false
  viewer_count : Option Nat := none
  initial_data : Option String := none
  body_text_preview : List Char := []
  deriving Repr, DecidableEq

/-- Property `PageSnapshot.is_healthy` (models.py lines 53-66). -/
def PageSnapshot.is_healthy (s : PageSnapshot) : Bool :=
  if s.has_captcha then false
  else if s.has_page_error then false
  else if s.is_live_ended then true
  else !s.has_error_message && s.has_video

/-- Shape of the dictionary returned by `PageSnapshot.to_dict`
(models.py lines 33-51): the `initial_data` blob is replaced by the
boolean `has_initial_data`, and `body_text_preview` is truncated. -/
structure SnapshotDict where
  timestamp : String
  url : String
  title : String
  has_video : Bool
  has_error_message : Bool
  has_page_error : Bool
  has_live_content : Bool
  is_live_ended : Bool
  has_captcha : Bool
  element_count : Nat
  video_count : Nat
  html_size : Nat
  viewer_count : Option Nat
  has_initial_data : Bool
  body_text_preview : List Char
  deriving Repr, DecidableEq

/-- Method `PageSnapshot.to_dict` (models.py lines 33-51). -/
def PageSnapshot.to_dict (s : PageSnapshot) : SnapshotDict :=
  { timestamp := s.timestamp
    url := s.url
    title := s.title
    has_video := s.has_video
    has_error_message := s.has_error_message
    has_page_error := s.has_page_error
    has_live_content := s.has_live_content
    is_live_ended := s.is_live_ended
    has_captcha := s.has_captcha
    element_count := s.element_count
    video_count := s.video_count
    html_size := s.html_size
    viewer_count := s.viewer_count
    has_initial_data := s.initial_data.isSome
    body_text_preview := s.body_text_preview.take 200 }

/-- The `MonitorSession` dataclass (models.py lines 69-98). -/
structure MonitorSession where
  username : String
  live_url : String
  start_time : String
  end_time : Option String := none
  snapshots : List PageSnapshot := []
  total_snapshots : Nat := 0
  healthy_snapshots : Nat := 0
  error_snapshots : Nat := 0
  deriving Repr, DecidableEq

/-- Method `MonitorSession.add_snapshot` (models.py lines 86-94). -/
def MonitorSession.add_snapshot (sess : MonitorSession) (s : PageSnapshot) :
    MonitorSession :=
  { sess with
    snapshots := sess.snapshots ++ [s]
    total_snapshots := sess.total_snapshots + 1
    healthy_snapshots :=
      if s.is_healthy then sess.healthy_snapshots + 1 else sess.healthy_snapshots
    error_snapshots :=
      if s.is_healthy then sess.error_snapshots else sess.error_snapshots + 1 }

/-- A sample healthy snapshot used by concrete witnesses. -/
def sampleHealthy : PageSnapshot :=
  { timestamp := "t1", url := "u", title := "live"
    has_video := true, has_error_message := false, has_live_content := true
    element_count := 10, video_count := 1, html_size := 1000 }

/-- A sample unhealthy (automation-detected) snapshot used by witnesses. -/
def sampleDetected : PageSnapshot :=
  { sampleHealthy with has_video := false, has_error_message := true }

/-- A sample page-error snapshot used by witnesses. -/
def samplePageError : PageSnapshot :=
  { sampleHealthy with has_page_error := true }

/-- A sample captcha snapshot used by witnesses. -/
def sampleCaptcha : PageSnapshot :=
  { sampleHealthy with has_captcha := true }

/-- A freshly constructed session, as built in `LiveCollector.initialize`. -/
def freshSession : MonitorSession :=
  { username := "user", live_url := "u", start_time := "t0" }

/-! ## Captcha handler (src/tiktok_monitor/captcha_handler.py) and
collection cycle (src/tiktok_monitor/collector.py) -/

/-- Polling loop `CaptchaHandler.wait_for_solution` (captcha_handler.py lines 239-259):
polls the `captcha_solved` flag once per second until the timeout elapses.
Time is discretised to the 1-second polling grid: `obs t` is the flag's
value at the t-th check, and `timeout` is the number of checks performed
inside the wall-clock window. -/
def wait_for_solution : Nat → (Nat → Bool) → Bool
  | 0, _ => false
  | Nat.succ n, obs => if obs 0 then true else wait_for_solution n fun t => obs (t + 1)

/-- Default `timeout` parameter of `LiveCollector._handle_captcha`
(collector.py line 230), used by the `collect_once` call site, which passes
no explicit timeout. -/
def handle_captcha_default_timeout : Nat := 300

/-- Handler `LiveCollector._handle_captcha` (collector.py lines 230-290): captures
the captcha image (failure aborts with `false`), then waits for the
external resolution signal within the timeout window; the short settle
sleep after success does not affect the returned value. -/
def handle_captcha (captureOk : Bool) (obs : Nat → Bool)
    (timeout : Nat := handle_captcha_default_timeout) : Bool :=
  captureOk && wait_for_solution timeout obs

/-- Constant `max_page_error_retries` (collector.py line 56). -/
def max_page_error_retries : Nat := 3

/-- The mutable collector fields touched by `collect_once`:
`page_error_retry_count`, `session` and `live_has_ended`
(collector.py lines 48-56). -/
structure CollectorState where
  page_error_retry_count : Nat := 0
  session : MonitorSession
  live_has_ended : Bool := false
  deriving Repr, DecidableEq

/-- One captcha episode as seen by `_handle_captcha`: whether the image
capture succeeds, and the per-second observations of the solved flag. -/
abbrev CaptchaEpisode : Type := Bool × (Nat → Bool)

/-- The cycle `LiveCollector.collect_once` (collector.py lines 130-228), with its
recursive retries made explicit: `snaps` is the stream of snapshots the
parser produces on the successive (re-)inspections, and `caps` supplies one
captcha episode per captcha encountered.  The result is `some (b, st)`
where `b` is the returned boolean ("continue?") and `st` the collector
state afterwards; `none` means the supplied streams were exhausted before
the cycle returned (an artefact of the embedding, not a behaviour of the
code).  Branch order follows the source: page-error check, retry-counter
reset, captcha check, session append, live-ended check, health return. -/
def collect_once : List PageSnapshot → List CaptchaEpisode → CollectorState →
    Option (Bool × CollectorState)
  | [], _, _ => none
  | s :: snaps, caps, st =>
      if s.has_page_error then
        if st.page_error_retry_count < max_page_error_retries then
          collect_once snaps caps
            { st with page_error_retry_count := st.page_error_retry_count + 1 }
        else
          some (false, st)
      else
        let st1 := { st with page_error_retry_count := 0 }
        if s.has_captcha then
          match caps with
          | [] => none
          | ep :: caps' =>
              if handle_captcha ep.1 ep.2 then collect_once snaps caps' st1
              else some (false, st1)
        else
          let st2 := { st1 with session := st1.session.add_snapshot s }
          if s.is_live_ended then some (false, { st2 with live_has_ended := true })
          else some (s.is_healthy, st2)

/-- A collector state as set up by `initialize` (fresh session, counter 0,
live not ended), used by concrete witnesses. -/
def st0 : CollectorState := { session := freshSession }

/-- A collector state whose page-error retry counter is mid-incident,
used by concrete witnesses. -/
def stRetry2 : CollectorState := { session := freshSession, page_error_retry_count := 2 }

/-! ## Interaction stream
(src/tiktok_monitor/hooks.py `get_live_interactions`,
src/tiktok_monitor/collector.py `process_live_interactions`) -/

/-- An interaction record pushed by the in-page observer:
`{timestamp, type, username, content}` (the `type` key is named `kind`
here). -/
structure Interaction where
  timestamp : String
  kind : String
  username : String
  content : String
  deriving Repr, DecidableEq

/-- Reader `JavaScriptHook.get_live_interactions` (hooks.py lines 660-674): reads
`window.__tiktok_live_interactions`; a failed read (the script raising) is
caught and yields the empty list.  The argument is `some captured` for a
successful read of the in-page array and `none` for a failed read. -/
def get_live_interactions (readResult : Option (List Interaction)) :
    List Interaction :=
  match readResult with
  | some captured => captured
  | none => []

/-- One poll of `LiveCollector.process_live_interactions` (collector.py
lines 292-313): takes the suffix of the read list beyond the watermark
`processed_interaction_count`, then sets the watermark to the read list's
length.  Returns the newly delivered interactions and the new watermark. -/
def process_live_interactions (readResult : Option (List Interaction))
    (processed_interaction_count : Nat) : List Interaction × Nat :=
  let all_interactions := get_live_interactions readResult
  (all_interactions.drop processed_interaction_count, all_interactions.length)

/-- A serialized sequence of polls against a captured sequence that only
grows by appending: `deltas` lists the interactions appended between
consecutive polls, every read succeeds, and each poll runs
`process_live_interactions`.  Returns the per-poll delivered batches
together with the final captured sequence and watermark. -/
def run_drains : List Interaction → Nat → List (List Interaction) →
    List (List Interaction) × (List Interaction × Nat)
  | captured, processed, [] => ([], (captured, processed))
  | captured, processed, d :: ds =>
      let all := captured ++ d
      let step := process_live_interactions (some all) processed
      let rest := run_drains all step.2 ds
      (step.1 :: rest.1, rest.2)

/-! ## Page inspection (src/tiktok_monitor/parser.py `parse_page_status`) -/

/-- The fixed-shape status record the inspection script returns
(parser.py lines 53-124). -/
structure StatusRecord where
  url : String
  title : String
  hasVideo : Bool
  videoCount : Nat
  hasErrorMessage : Bool
  hasPageError : Bool
  isLiveEnded : Bool
  hasLiveContent : Bool
  hasCaptcha : Bool
  elementCount : Nat
  viewerCount : Option Nat
  bodyTextPreview : List Char
  deriving Repr, DecidableEq

/-- The page facts the inspection script queries from the DOM. -/
structure PageDom where
  locationHref : String
  docTitle : String
  bodyTextRaw : List Char
  videoElement : Bool
  videoElementCount : Nat
  liveClassElement : Bool
  captchaDomElement : Bool
  allElementCount : Nat
  viewerElementTexts : List (List Char)

/-- The fault points the inspection script guards with an individual
try/catch (parser.py lines 43-49, 61-72, 78-99, 101-112, 114-123): the
body-text read and the pageError, captcha, viewerCount and bodyTextPreview
signal evaluations.  A set flag means that evaluation faults. -/
structure DetectorFaults where
  bodyTextFault : Bool := false
  pageErrorFault : Bool := false
  captchaFault : Bool := false
  viewerFault : Bool := false
  previewFault : Bool := false

/-- Whether `needle` occurs at the head of `hay` (helper for
`includesList`). -/
def startsWithList : List Char → List Char → Bool
  | _, [] => true
  | [], _ :: _ => false
  | a :: as, b :: bs => a == b && startsWithList as bs

/-- JavaScript `hay.includes(needle)` on character lists. -/
def includesList : List Char → List Char → Bool
  | [], needle => needle.isEmpty
  | a :: t, needle => startsWithList (a :: t) needle || includesList t needle

/-- JavaScript `toLowerCase()` on character lists. -/
def toLowerList (s : List Char) : List Char := s.map Char.toLower

/-- The leading maximal digit run of a text (helper for the `/\d+/`
match). -/
def leadingDigits : List Char → List Char
  | [] => []
  | c :: rest => if c.isDigit then c :: leadingDigits rest else []

/-- JavaScript `parseInt` on a digit run. -/
def digitsToNat (ds : List Char) : Nat :=
  ds.foldl (fun acc c => acc * 10 + (c.toNat - ('0').toNat)) 0

/-- The value of the first `/\d+/` match in a text, if any. -/
def firstNumberInText : List Char → Option Nat
  | [] => none
  | c :: rest =>
      if c.isDigit then some (digitsToNat (leadingDigits (c :: rest)))
      else firstNumberInText rest

/-- The `viewerCount` detector body (parser.py lines 101-112): the first
numeric token found in any viewer-class element's text, else `null`. -/
def viewerCountOf : List (List Char) → Option Nat
  | [] => none
  | e :: es =>
      match firstNumberInText e with
      | some n => some n
      | none => viewerCountOf es

/-- The control-character class of the sanitisation regex
`[\x00-\x1F\x7F-\x9F]` (parser.py line 119). -/
def isJsControlChar (c : Char) : Bool :=
  c.toNat ≤ 0x1F || (0x7F ≤ c.toNat && c.toNat ≤ 0x9F)

/-- The `bodyTextPreview` detector body (parser.py lines 114-123):
`bodyText.substring(0, 500)` then every control character replaced by a
space. -/
def bodyTextPreviewOf (bodyText : List Char) : List Char :=
  (bodyText.take 500).map fun c => if isJsControlChar c then ' ' else c

/-- Helper `getBodyText` (parser.py lines 43-49): a faulting read of
`document.body.innerText` is caught and yields the empty string. -/
def getBodyText (dom : PageDom) (f : DetectorFaults) : List Char :=
  if f.bodyTextFault then [] else dom.bodyTextRaw

/-- The status record built by the inspection script
(parser.py lines 53-124), with each individually guarded signal falling
back to its safe default when its evaluation faults. -/
def computeStatus (dom : PageDom) (f : DetectorFaults) : StatusRecord :=
  let bodyText := getBodyText dom f
  { url := dom.locationHref
    title := dom.docTitle
    hasVideo := dom.videoElement
    videoCount := dom.videoElementCount
    hasErrorMessage :=
      includesList bodyText "尝试其它浏览器".toList ||
      includesList bodyText "try another browser".toList
    hasPageError :=
      if f.pageErrorFault then false
      else
        includesList bodyText "我们遇到了一些问题".toList ||
        includesList bodyText "很抱歉造成不便".toList ||
        includesList bodyText "请稍后重试".toList ||
        includesList bodyText "Something went wrong".toList ||
        includesList bodyText "We encountered an issue".toList ||
        includesList bodyText "Please try again".toList
    isLiveEnded :=
      includesList bodyText "直播已结束".toList ||
      includesList bodyText "Live ended".toList
    hasLiveContent := dom.liveClassElement
    hasCaptcha :=
      if f.captchaFault then false
      else
        (includesList (toLowerList bodyText) "验证".toList ||
         includesList (toLowerList bodyText) "captcha".toList ||
         includesList (toLowerList bodyText) "verify".toList ||
         includesList (toLowerList bodyText) "滑动验证".toList ||
         includesList (toLowerList bodyText) "slider".toList) ||
        dom.captchaDomElement
    elementCount := dom.allElementCount
    viewerCount :=
      if f.viewerFault then none else viewerCountOf dom.viewerElementTexts
    bodyTextPreview :=
      if f.previewFault then [] else bodyTextPreviewOf bodyText }

/-- Wrapper `PageParser.parse_page_status` (parser.py lines 28-152): evaluates the
inspection script over the query channel.  `none` models an unusable
channel (the browser call raising), which the Python wrapper turns into a
`ParserError`; a working channel yields the computed status record,
whatever detector faults occurred. -/
def parse_page_status (channel : Option (PageDom × DetectorFaults)) :
    Except String StatusRecord :=
  match channel with
  | none => Except.error "ParserError"
  | some (dom, f) => Except.ok (computeStatus dom f)

/-! ## Theorems for C1, C4, C10 -/

/-- C1: `is_healthy` is exactly the fixed-priority function of
`has_captcha`, `has_page_error`, `is_live_ended`, `has_error_message` and
`has_video`: false on captcha; else false on page error; else true on live
ended; else `not has_error_message and has_video`.  Consequently it depends
on no other field (any two snapshots agreeing on those five fields agree on
`is_healthy`), and `has_captcha = true` forces `is_healthy = false`
regardless of every other field. -/
theorem C1_is_healthy_priority :
    (∀ s : PageSnapshot,
      s.is_healthy =
        (if s.has_captcha then false
         else if s.has_page_error then false
         else if s.is_live_ended then true
         else !s.has_error_message && s.has_video)) ∧
    (∀ s s' : PageSnapshot,
      s.has_captcha = s'.has_captcha →
      s.has_page_error = s'.has_page_error →
      s.is_live_ended = s'.is_live_ended →
      s.has_error_message = s'.has_error_message →
      s.has_video = s'.has_video →
      s.is_healthy = s'.is_healthy) ∧
    (∀ s : PageSnapshot, s.has_captcha = true → s.is_healthy = false) := by
  refine ⟨fun s => rfl, ?_, ?_⟩
  · intro s s' h1 h2 h3 h4 h5
    simp [PageSnapshot.is_healthy, h1, h2, h3, h4, h5]
  · intro s h
    simp [PageSnapshot.is_healthy, h]

/-- C1 witness: the theorem applied at concrete snapshots. -/
theorem C1_is_healthy_priority_witness :
    sampleCaptcha.is_healthy = false ∧
    sampleHealthy.is_healthy = sampleHealthy.is_healthy := by
  refine ⟨C1_is_healthy_priority.2.2 sampleCaptcha (by decide), ?_⟩
  exact C1_is_healthy_priority.2.1 sampleHealthy sampleHealthy rfl rfl rfl rfl rfl

/-- C4: each `add_snapshot` appends the snapshot, increments
`total_snapshots` by one and exactly one of `healthy_snapshots` (when the
snapshot is healthy) or `error_snapshots` (otherwise); and after any finite
sequence of `add_snapshot` calls starting from a session satisfying
`total = healthy + error` and `length snapshots = total`, both invariants
still hold and the snapshot list is the old list extended in insertion
order. -/
theorem C4_session_counters :
    (∀ (sess : MonitorSession) (s : PageSnapshot),
      (sess.add_snapshot s).snapshots = sess.snapshots ++ [s] ∧
      (sess.add_snapshot s).total_snapshots = sess.total_snapshots + 1 ∧
      ((s.is_healthy = true →
          (sess.add_snapshot s).healthy_snapshots = sess.healthy_snapshots + 1 ∧
          (sess.add_snapshot s).error_snapshots = sess.error_snapshots) ∧
       (s.is_healthy = false →
          (sess.add_snapshot s).healthy_snapshots = sess.healthy_snapshots ∧
          (sess.add_snapshot s).error_snapshots = sess.error_snapshots + 1))) ∧
    (∀ (l : List PageSnapshot) (sess : MonitorSession),
      sess.total_snapshots = sess.healthy_snapshots + sess.error_snapshots →
      sess.snapshots.length = sess.total_snapshots →
      (l.foldl MonitorSession.add_snapshot sess).total_snapshots =
          (l.foldl MonitorSession.add_snapshot sess).healthy_snapshots +
          (l.foldl MonitorSession.add_snapshot sess).error_snapshots ∧
      (l.foldl MonitorSession.add_snapshot sess).snapshots.length =
          (l.foldl MonitorSession.add_snapshot sess).total_snapshots ∧
      (l.foldl MonitorSession.add_snapshot sess).snapshots =
          sess.snapshots ++ l) := by
  constructor
  · intro sess s
    refine ⟨rfl, rfl, ?_, ?_⟩
    · intro h; simp [MonitorSession.add_snapshot, h]
    · intro h; simp [MonitorSession.add_snapshot, h]
  · intro l
    induction l with
    | nil => intro sess h1 h2; simpa using ⟨h1, h2⟩
    | cons s rest ih =>
        intro sess h1 h2
        have h1' : (sess.add_snapshot s).total_snapshots =
            (sess.add_snapshot s).healthy_snapshots +
            (sess.add_snapshot s).error_snapshots := by
          by_cases hs : s.is_healthy <;>
            simp [MonitorSession.add_snapshot, hs, h1] <;> omega
        have h2' : (sess.add_snapshot s).snapshots.length =
            (sess.add_snapshot s).total_snapshots := by
          simp [MonitorSession.add_snapshot, h2]
        have := ih (sess.add_snapshot s) h1' h2'
        simpa [MonitorSession.add_snapshot] using this

/-- C4 witness: the theorem applied with a concrete session and a concrete
sequence of three snapshots. -/
theorem C4_session_counters_witness :
    (([sampleHealthy, sampleDetected, sampleHealthy].foldl
        MonitorSession.add_snapshot freshSession).total_snapshots =
      ([sampleHealthy, sampleDetected, sampleHealthy].foldl
        MonitorSession.add_snapshot freshSession).healthy_snapshots +
      ([sampleHealthy, sampleDetected, sampleHealthy].foldl
        MonitorSession.add_snapshot freshSession).error_snapshots) ∧
    (freshSession.add_snapshot sampleDetected).healthy_snapshots =
      freshSession.healthy_snapshots := by
  constructor
  · exact (C4_session_counters.2 [sampleHealthy, sampleDetected, sampleHealthy]
      freshSession (by decide) (by decide)).1
  · exact ((C4_session_counters.1 freshSession sampleDetected).2.2.2
      (by decide)).1

/-- C10: `to_dict` truncates `body_text_preview` to its first 200
characters (so the emitted preview never exceeds 200 characters), replaces
the `initial_data` blob by the boolean `has_initial_data` that is true
exactly when the blob is present, and copies every other stored field
unchanged; being a pure function of the snapshot, it leaves the snapshot
itself untouched. -/
theorem C10_to_dict_shape :
    ∀ s : PageSnapshot,
      (s.to_dict.body_text_preview = s.body_text_preview.take 200 ∧
       s.to_dict.body_text_preview.length ≤ 200) ∧
      (s.to_dict.has_initial_data = s.initial_data.isSome ∧
       (s.to_dict.has_initial_data = true ↔ s.initial_data ≠ none)) ∧
      (s.to_dict.timestamp = s.timestamp ∧
       s.to_dict.url = s.url ∧
       s.to_dict.title = s.title ∧
       s.to_dict.has_video = s.has_video ∧
       s.to_dict.has_error_message = s.has_error_message ∧
       s.to_dict.has_page_error = s.has_page_error ∧
       s.to_dict.has_live_content = s.has_live_content ∧
       s.to_dict.is_live_ended = s.is_live_ended ∧
       s.to_dict.has_captcha = s.has_captcha ∧
       s.to_dict.element_count = s.element_count ∧
       s.to_dict.video_count = s.video_count ∧
       s.to_dict.html_size = s.html_size ∧
       s.to_dict.viewer_count = s.viewer_count) := by
  intro s
  refine ⟨⟨rfl, ?_⟩, ⟨rfl, ?_⟩, rfl, rfl, rfl, rfl, rfl, rfl, rfl, rfl, rfl,
    rfl, rfl, rfl, rfl⟩
  · simp [PageSnapshot.to_dict]
  · simp [PageSnapshot.to_dict, Option.isSome_iff_ne_none]

/-- C2: for an append-only captured sequence and serialized drains, the
concatenation of the drained suffixes equals exactly the portion of the
captured sequence appended since the point where the watermark matched the
captured length — in append order, with no event delivered twice and none
skipped — and the final watermark equals the final captured length.  In
particular, starting from the empty capture, the concatenation of all
drains is the entire captured sequence. -/
theorem C2_drain_exactly_once :
    ∀ (ds : List (List Interaction)) (captured : List Interaction),
      (run_drains captured captured.length ds).1.flatten = ds.flatten ∧
      (run_drains captured captured.length ds).2 =
        (captured ++ ds.flatten, (captured ++ ds.flatten).length) := by
  intro ds
  induction ds with
  | nil => intro captured; simp [run_drains]
  | cons d rest ih =>
      intro captured
      have hun : run_drains captured captured.length (d :: rest) =
          ((captured ++ d).drop captured.length ::
              (run_drains (captured ++ d) (captured ++ d).length rest).1,
           (run_drains (captured ++ d) (captured ++ d).length rest).2) := rfl
      have hd : (captured ++ d).drop captured.length = d := by simp
      obtain ⟨ih1, ih2⟩ := ih (captured ++ d)
      constructor
      · rw [hun]
        simp only [List.flatten_cons, hd, ih1]
      · rw [hun, ih2]
        simp [List.flatten_cons, List.append_assoc]

/-- C5 counterexample: the claim "the watermark after any poll is ≥ the
watermark before, even when the read fails" is false at the concrete state
watermark = 2 with a failed read: the poll sets the watermark to 0. -/
theorem C5_watermark_counterexample :
    ¬ ((process_live_interactions none 2).2 ≥ 2) := by decide

/-- C5 (amended): the watermark after a poll equals the length of the list
the poll read (the empty list when the read failed); hence it never
decreases provided every read returns a list at least as long as the
current watermark, but a failed read resets it to 0 and a shorter read
lowers it to that read's length. -/
theorem C5_watermark_after_poll :
    (∀ (readResult : Option (List Interaction)) (p : Nat),
      (process_live_interactions readResult p).2 =
        (get_live_interactions readResult).length) ∧
    (∀ (readResult : Option (List Interaction)) (p : Nat),
      p ≤ (get_live_interactions readResult).length →
      (process_live_interactions readResult p).2 ≥ p) ∧
    (∀ p : Nat, (process_live_interactions none p).2 = 0) := by
  refine ⟨fun r p => rfl, ?_, fun p => rfl⟩
  intro r p h
  simpa [process_live_interactions] using h

/-- C5 witness: the amended theorem applied at a concrete successful poll
whose read is at least as long as the watermark. -/
theorem C5_watermark_after_poll_witness :
    (process_live_interactions
        (some [⟨"t", "chat", "u", "hi"⟩, ⟨"t2", "gift", "v", "rose"⟩]) 1).2 ≥ 1 :=
  C5_watermark_after_poll.2.1
    (some [⟨"t", "chat", "u", "hi"⟩, ⟨"t2", "gift", "v", "rose"⟩]) 1 (by decide)

/-! ## Lemmas about the collection cycle -/

/-- A page-error snapshot with retries left: increment the counter and
re-run the cycle on the next inspection. -/
theorem collect_once_error_step (s : PageSnapshot) (snaps : List PageSnapshot)
    (caps : List CaptchaEpisode) (st : CollectorState)
    (hs : s.has_page_error = true)
    (hlt : st.page_error_retry_count < max_page_error_retries) :
    collect_once (s :: snaps) caps st =
      collect_once snaps caps
        { st with page_error_retry_count := st.page_error_retry_count + 1 } := by
  simp [collect_once, hs, hlt]

/-- A page-error snapshot with the retry budget exhausted: give up,
returning `false` with the state untouched. -/
theorem collect_once_error_giveup (s : PageSnapshot) (snaps : List PageSnapshot)
    (caps : List CaptchaEpisode) (st : CollectorState)
    (hs : s.has_page_error = true)
    (hge : ¬ st.page_error_retry_count < max_page_error_retries) :
    collect_once (s :: snaps) caps st = some (false, st) := by
  simp [collect_once, hs, hge]

/-- A run of page-error snapshots within the retry budget is consumed one
by one, incrementing the counter by the run's length. -/
theorem collect_once_error_run :
    ∀ (errs snaps : List PageSnapshot) (caps : List CaptchaEpisode)
      (st : CollectorState),
      (∀ e ∈ errs, e.has_page_error = true) →
      st.page_error_retry_count + errs.length ≤ max_page_error_retries →
      collect_once (errs ++ snaps) caps st =
        collect_once snaps caps
          { st with page_error_retry_count :=
              st.page_error_retry_count + errs.length } := by
  intro errs
  induction errs with
  | nil => intro snaps caps st _ _; simp
  | cons e rest ih =>
      intro snaps caps st herr hle
      have he : e.has_page_error = true := herr e (by simp)
      simp only [List.length_cons, max_page_error_retries] at hle
      have hlt : st.page_error_retry_count < max_page_error_retries := by
        simp only [max_page_error_retries]; omega
      rw [List.cons_append, collect_once_error_step e (rest ++ snaps) caps st he hlt]
      have hrest : ∀ e' ∈ rest, e'.has_page_error = true :=
        fun e' he' => herr e' (by simp [he'])
      have hle' :
          ({ st with page_error_retry_count := st.page_error_retry_count + 1 } :
            CollectorState).page_error_retry_count + rest.length ≤
            max_page_error_retries := by
        show st.page_error_retry_count + 1 + rest.length ≤ max_page_error_retries
        simp only [max_page_error_retries]; omega
      rw [ih snaps caps _ hrest hle']
      show collect_once snaps caps
          { st with page_error_retry_count :=
              st.page_error_retry_count + 1 + rest.length } =
        collect_once snaps caps
          { st with page_error_retry_count :=
              st.page_error_retry_count + (rest.length + 1) }
      have harith : st.page_error_retry_count + 1 + rest.length =
          st.page_error_retry_count + (rest.length + 1) := by omega
      rw [harith]

/-- Correctness of `wait_for_solution`: it succeeds exactly when the solved flag is observed
at some check inside the window. -/
theorem wait_for_solution_iff :
    ∀ (n : Nat) (obs : Nat → Bool),
      wait_for_solution n obs = true ↔ ∃ t, t < n ∧ obs t = true := by
  intro n
  induction n with
  | zero => intro obs; simp [wait_for_solution]
  | succ m ih =>
      intro obs
      constructor
      · intro hw
        rw [wait_for_solution] at hw
        by_cases h0 : obs 0 = true
        · exact ⟨0, Nat.succ_pos m, h0⟩
        · rw [if_neg h0] at hw
          obtain ⟨t, ht, hobs⟩ := (ih _).mp hw
          exact ⟨t + 1, by omega, hobs⟩
      · rintro ⟨t, ht, hobs⟩
        rw [wait_for_solution]
        by_cases h0 : obs 0 = true
        · rw [if_pos h0]
        · rw [if_neg h0]
          apply (ih _).mpr
          cases t with
          | zero => exact absurd hobs h0
          | succ u => exact ⟨u, by omega, hobs⟩

/-! ## Theorems for C3, C6, C7 -/

/-- C3: the page-error retry counter is as-if reset to 0 whenever the
current snapshot has `has_page_error = false` (the cycle's outcome is the
same as from a zeroed counter); a run of at most three consecutive
page-error snapshots starting from a zeroed counter is retried
snapshot-by-snapshot, the cycle continuing into the following inspections
with the counter equal to the run's length; and four consecutive
page-error snapshots from a zeroed counter make `collect_once` return the
give-up result `false` — a value, not an exception — exactly at the 4th
one, with session and ended-flag untouched. -/
theorem C3_page_error_retry_policy :
    (∀ (s : PageSnapshot) (snaps : List PageSnapshot) (caps : List CaptchaEpisode)
        (st : CollectorState), s.has_page_error = false →
      collect_once (s :: snaps) caps st =
        collect_once (s :: snaps) caps { st with page_error_retry_count := 0 }) ∧
    (∀ (errs snaps : List PageSnapshot) (caps : List CaptchaEpisode)
        (st : CollectorState),
      (∀ e ∈ errs, e.has_page_error = true) → errs.length ≤ 3 →
      st.page_error_retry_count = 0 →
      collect_once (errs ++ snaps) caps st =
        collect_once snaps caps
          { st with page_error_retry_count := errs.length }) ∧
    (∀ (e1 e2 e3 e4 : PageSnapshot) (snaps : List PageSnapshot)
        (caps : List CaptchaEpisode) (st : CollectorState),
      e1.has_page_error = true → e2.has_page_error = true →
      e3.has_page_error = true → e4.has_page_error = true →
      st.page_error_retry_count = 0 →
      collect_once (e1 :: e2 :: e3 :: e4 :: snaps) caps st =
        some (false, { st with page_error_retry_count := 3 })) := by
  refine ⟨?_, ?_, ?_⟩
  · intro s snaps caps st hs
    simp [collect_once, hs]
  · intro errs snaps caps st herr hlen h0
    rcases st with ⟨c, sess, fl⟩
    simp only [CollectorState.mk.injEq] at h0 ⊢
    have h0' : c = 0 := h0
    subst h0'
    have := collect_once_error_run errs snaps caps ⟨0, sess, fl⟩ herr
      (by simpa [max_page_error_retries] using hlen)
    simpa using this
  · intro e1 e2 e3 e4 snaps caps st h1 h2 h3 h4 h0
    rcases st with ⟨c, sess, fl⟩
    have h0' : c = 0 := h0
    subst h0'
    have hmem : ∀ e ∈ [e1, e2, e3], e.has_page_error = true := by
      intro e he
      simp only [List.mem_cons, List.not_mem_nil, or_false] at he
      rcases he with h | h | h
      · subst h; exact h1
      · subst h; exact h2
      · subst h; exact h3
    have hrun := collect_once_error_run [e1, e2, e3] (e4 :: snaps) caps
      ⟨0, sess, fl⟩ hmem (by simp [max_page_error_retries])
    simp only [List.cons_append, List.nil_append] at hrun
    rw [hrun]
    have := collect_once_error_giveup e4 snaps caps
      ⟨0 + [e1, e2, e3].length, sess, fl⟩ h4
      (by simp [max_page_error_retries])
    simpa using this

/-- C3 witness: four consecutive page-error snapshots from a fresh state
give up with counter 3, and a non-error snapshot makes the outcome
independent of a mid-incident counter value. -/
theorem C3_page_error_retry_policy_witness :
    collect_once [samplePageError, samplePageError, samplePageError, samplePageError]
        [] st0 = some (false, { st0 with page_error_retry_count := 3 }) ∧
    collect_once [sampleHealthy] [] stRetry2 =
      collect_once [sampleHealthy] [] { stRetry2 with page_error_retry_count := 0 } := by
  constructor
  · exact C3_page_error_retry_policy.2.2 samplePageError samplePageError
      samplePageError samplePageError [] [] st0 rfl rfl rfl rfl rfl
  · exact C3_page_error_retry_policy.1 sampleHealthy [] [] stRetry2 rfl

/-- C6: whenever the collection cycle returns, the session it leaves
behind is the starting session extended — via `add_snapshot`, hence with
all counters maintained — by snapshots that all have
`has_page_error = false` and `has_captcha = false`: page-error and captcha
snapshots are never appended to the session and alter none of its
counters; only snapshots reaching the normal/ended branches are
appended. -/
theorem C6_session_frame :
    ∀ (snaps : List PageSnapshot) (caps : List CaptchaEpisode)
      (st : CollectorState) (b : Bool) (st' : CollectorState),
      collect_once snaps caps st = some (b, st') →
      ∃ app : List PageSnapshot,
        (∀ s ∈ app, s.has_page_error = false ∧ s.has_captcha = false) ∧
        st'.session = app.foldl MonitorSession.add_snapshot st.session := by
  intro snaps
  induction snaps with
  | nil => intro caps st b st' h; simp [collect_once] at h
  | cons s rest ih =>
      intro caps st b st' h
      by_cases hpe : s.has_page_error = true
      · by_cases hlt : st.page_error_retry_count < max_page_error_retries
        · rw [collect_once_error_step s rest caps st hpe hlt] at h
          obtain ⟨app, hap, hsess⟩ := ih caps _ b st' h
          exact ⟨app, hap, by simpa using hsess⟩
        · rw [collect_once_error_giveup s rest caps st hpe hlt] at h
          simp only [Option.some.injEq, Prod.mk.injEq] at h
          exact ⟨[], by simp, by simp [← h.2]⟩
      · have hpe' : s.has_page_error = false := by simpa using hpe
        by_cases hc : s.has_captcha = true
        · cases caps with
          | nil => simp [collect_once, hpe', hc] at h
          | cons ep caps' =>
              by_cases hh : handle_captcha ep.1 ep.2 = true
              · have hstep :
                    collect_once (s :: rest) (ep :: caps') st =
                      collect_once rest caps'
                        { st with page_error_retry_count := 0 } := by
                  simp [collect_once, hpe', hc, hh]
                rw [hstep] at h
                obtain ⟨app, hap, hsess⟩ := ih caps' _ b st' h
                exact ⟨app, hap, by simpa using hsess⟩
              · have hh' : handle_captcha ep.1 ep.2 = false := by simpa using hh
                have hstep :
                    collect_once (s :: rest) (ep :: caps') st =
                      some (false, { st with page_error_retry_count := 0 }) := by
                  simp [collect_once, hpe', hc, hh']
                rw [hstep] at h
                simp only [Option.some.injEq, Prod.mk.injEq] at h
                exact ⟨[], by simp, by simp [← h.2]⟩
        · have hc' : s.has_captcha = false := by simpa using hc
          by_cases hle : s.is_live_ended = true
          · have hstep :
                collect_once (s :: rest) caps st =
                  some (false,
                    { st with
                      page_error_retry_count := 0
                      session := st.session.add_snapshot s
                      live_has_ended := true }) := by
              simp [collect_once, hpe', hc', hle]
            rw [hstep] at h
            simp only [Option.some.injEq, Prod.mk.injEq] at h
            refine ⟨[s], ?_, ?_⟩
            · intro x hx
              simp only [List.mem_singleton] at hx
              subst hx
              exact ⟨hpe', hc'⟩
            · rw [← h.2]
              simp
          · have hle' : s.is_live_ended = false := by simpa using hle
            have hstep :
                collect_once (s :: rest) caps st =
                  some (s.is_healthy,
                    { st with
                      page_error_retry_count := 0
                      session := st.session.add_snapshot s }) := by
              simp [collect_once, hpe', hc', hle']
            rw [hstep] at h
            simp only [Option.some.injEq, Prod.mk.injEq] at h
            refine ⟨[s], ?_, ?_⟩
            · intro x hx
              simp only [List.mem_singleton] at hx
              subst hx
              exact ⟨hpe', hc'⟩
            · rw [← h.2]

              simp

/-- C6 witness: the theorem applied to the concrete run
`[captcha (resolved), healthy]` from a fresh collector state. -/
theorem C6_session_frame_witness :
    ∃ app : List PageSnapshot,
      (∀ s ∈ app, s.has_page_error = false ∧ s.has_captcha = false) ∧
      ({ page_error_retry_count := 0
         session := freshSession.add_snapshot sampleHealthy
         live_has_ended := false } : CollectorState).session =
        app.foldl MonitorSession.add_snapshot st0.session :=
  C6_session_frame [sampleCaptcha, sampleHealthy] [(true, fun _ => true)] st0
    true
    { page_error_retry_count := 0
      session := freshSession.add_snapshot sampleHealthy
      live_has_ended := false }
    (by decide)

/-- C7: a captcha snapshot (with no page error) opens a resolution window
of `handle_captcha_default_timeout = 300` seconds; `_handle_captcha`
succeeds exactly when the solved flag is observed at some 1-second check
inside the window; on success the cycle re-runs on the next inspection
with the page-error retry counter still 0 (no retry consumed) and the
session untouched; on timeout `collect_once` returns the stop result
`false` as a value (collection halts cleanly). -/
theorem C7_captcha_window :
    (∀ obs : Nat → Bool,
      handle_captcha true obs = true ↔
        ∃ t, t < handle_captcha_default_timeout ∧ obs t = true) ∧
    handle_captcha_default_timeout = 300 ∧
    (∀ (c : PageSnapshot) (snaps : List PageSnapshot) (caps : List CaptchaEpisode)
        (st : CollectorState) (obs : Nat → Bool),
      c.has_page_error = false → c.has_captcha = true →
      ((∃ t, t < 300 ∧ obs t = true) →
        collect_once (c :: snaps) ((true, obs) :: caps) st =
          collect_once snaps caps { st with page_error_retry_count := 0 }) ∧
      ((∀ t, t < 300 → obs t = false) →
        collect_once (c :: snaps) ((true, obs) :: caps) st =
          some (false, { st with page_error_retry_count := 0 }))) := by
  refine ⟨?_, rfl, ?_⟩
  · intro obs
    simp only [handle_captcha, Bool.true_and]
    exact wait_for_solution_iff _ obs
  · intro c snaps caps st obs hpe hc
    constructor
    · rintro ⟨t, ht, hobs⟩
      have hw : wait_for_solution handle_captcha_default_timeout obs = true :=
        (wait_for_solution_iff _ obs).mpr ⟨t, ht, hobs⟩
      have hh : handle_captcha true obs = true := by
        simp [handle_captcha, hw]
      simp [collect_once, hpe, hc, hh]
    · intro hto
      have hw : wait_for_solution handle_captcha_default_timeout obs = false := by
        cases hwv : wait_for_solution handle_captcha_default_timeout obs
        · rfl
        · obtain ⟨t, ht, hobs⟩ := (wait_for_solution_iff _ obs).mp hwv
          have hfx := hto t ht
          rw [hfx] at hobs
          exact absurd hobs (by simp)
      have hh : handle_captcha true obs = false := by
        simp [handle_captcha, hw]
      simp [collect_once, hpe, hc, hh]

/-- C7 witness: the theorem applied to a captcha snapshot with a
resolution signal at the first check, and to one whose signal never
arrives inside the window. -/
theorem C7_captcha_window_witness :
    collect_once [sampleCaptcha] [(true, fun _ => true)] st0 =
      collect_once [] [] { st0 with page_error_retry_count := 0 } ∧
    collect_once [sampleCaptcha] [(true, fun _ => false)] st0 =
      some (false, { st0 with page_error_retry_count := 0 }) :=
  ⟨(C7_captcha_window.2.2 sampleCaptcha [] [] st0 (fun _ => true) rfl rfl).1
      ⟨0, by omega, rfl⟩,
   (C7_captcha_window.2.2 sampleCaptcha [] [] st0 (fun _ => false) rfl rfl).2
      (fun t ht => rfl)⟩

/-! ## Theorems for C8, C9 -/

/-- Position-wise description of `bodyTextPreviewOf` inside the 500-char
window. -/
theorem bodyTextPreviewOf_getElem (body : List Char) (i : Nat) (hi : i < 500) :
    (bodyTextPreviewOf body)[i]? =
      (body[i]?).map fun c => if isJsControlChar c then ' ' else c := by
  simp [bodyTextPreviewOf, List.getElem?_take_of_lt, hi]

/-- C8: the body-text preview is the first at most 500 characters of the
visible body text (length `min |body| 500`), each kept character equal to
the original unless it is a control character (the `[\x00-\x1F\x7F-\x9F]`
class), in which case it is a space; no control character — in particular
no 0x07 byte — reaches the caller, and a 600-character body yields exactly
a 500-character preview. -/
theorem C8_body_preview_sanitised :
    (∀ body : List Char, (bodyTextPreviewOf body).length = min body.length 500) ∧
    (∀ body : List Char, ∀ c ∈ bodyTextPreviewOf body, isJsControlChar c = false) ∧
    (∀ (body : List Char) (i : Nat), i < 500 →
      (bodyTextPreviewOf body)[i]? =
        (body[i]?).map fun c => if isJsControlChar c then ' ' else c) ∧
    (∀ body : List Char, body.length = 600 →
      (bodyTextPreviewOf body).length = 500) ∧
    (∀ (body : List Char) (i : Nat), i < 500 →
      body[i]? = some (Char.ofNat 0x07) →
      (bodyTextPreviewOf body)[i]? = some ' ') := by
  refine ⟨?_, ?_, ?_, ?_, ?_⟩
  · intro body
    simp [bodyTextPreviewOf]
    omega
  · intro body c hc
    simp only [bodyTextPreviewOf, List.mem_map] at hc
    obtain ⟨a, _, rfl⟩ := hc
    by_cases h : isJsControlChar a = true
    · simp [h]
      decide
    · simp only [Bool.not_eq_true] at h
      simp [h]
  · intro body i hi
    exact bodyTextPreviewOf_getElem body i hi
  · intro body h
    simp [bodyTextPreviewOf, h]
  · intro body i hi hbyte
    rw [bodyTextPreviewOf_getElem body i hi, hbyte]
    decide

/-- C8 witness: the theorem applied to concrete bodies — a 3-character
body whose second character is the control byte 0x07, and a 600-character
body. -/
theorem C8_body_preview_sanitised_witness :
    (bodyTextPreviewOf ['a', Char.ofNat 0x07, 'b']).length =
      min (['a', Char.ofNat 0x07, 'b'] : List Char).length 500 ∧
    isJsControlChar 'a' = false ∧
    (bodyTextPreviewOf (List.replicate 600 'x')).length = 500 ∧
    (bodyTextPreviewOf ['a', Char.ofNat 0x07, 'b'])[1]? = some ' ' :=
  ⟨C8_body_preview_sanitised.1 ['a', Char.ofNat 0x07, 'b'],
   C8_body_preview_sanitised.2.1 ['a'] 'a' (by decide),
   C8_body_preview_sanitised.2.2.2.1 (List.replicate 600 'x')
     (by rw [List.length_replicate]),
   C8_body_preview_sanitised.2.2.2.2 ['a', Char.ofNat 0x07, 'b'] 1 (by decide)
     (by decide)⟩

/-- C9: the inspection never raises for a detection failure — over a
working query channel `parse_page_status` returns a status record whatever
detector faults occurred, and each individually guarded signal that faults
takes exactly its safe default (`false` for the boolean detectors
`hasPageError` and `hasCaptcha`, `none` for `viewerCount`, the empty
string for `bodyTextPreview`) while every other field of the record is the
same as without the fault (the remaining signals are still evaluated);
`parse_page_status` yields the `ParserError` outcome exactly when the
query channel itself is unusable. -/
theorem C9_detection_fault_policy :
    (parse_page_status none = Except.error "ParserError") ∧
    (∀ (dom : PageDom) (f : DetectorFaults),
      parse_page_status (some (dom, f)) = Except.ok (computeStatus dom f)) ∧
    (∀ (dom : PageDom) (f : DetectorFaults),
      computeStatus dom { f with pageErrorFault := true } =
        { computeStatus dom f with hasPageError := false } ∧
      computeStatus dom { f with captchaFault := true } =
        { computeStatus dom f with hasCaptcha := false } ∧
      computeStatus dom { f with viewerFault := true } =
        { computeStatus dom f with viewerCount := none } ∧
      computeStatus dom { f with previewFault := true } =
        { computeStatus dom f with bodyTextPreview := [] }) := by
  exact ⟨rfl, fun dom f => rfl, fun dom f => ⟨rfl, rfl, rfl, rfl⟩⟩
